import Mathlib

/-!
Shallow embedding of the `IIIFDataService` class of the Page-Viewer
repository (canonical revision: the module exposing `fetchPageViewerData`,
i.e. the latest of the duplicated service-file revisions), together with
proofs about the claims on it.

JavaScript numbers are modelled by `JNum` (a rational, NaN, or a signed
infinity); machine floats are idealised as exact rationals, which is
faithful for the small integer coordinate and size arithmetic this code
performs.  JSON values reaching each function are modelled by dedicated
structures whose fields are `Option`-typed when the source dereferences
them with optional chaining or tests them for truthiness; an absent array
that is only ever read through optional chaining is modelled as `[]`.
Network effects are abstracted by explicit fetch outcomes.
-/

namespace PageViewer

/-- Model of a JavaScript number: an exact rational, NaN, or ±Infinity. -/
inductive JNum
  | num (q : ℚ)
  | nan
  | inf
  | ninf
  deriving DecidableEq, Repr

namespace JNum

/-- Numeric coercion of a possibly-absent number: `undefined` coerces to NaN
(as in `Math.min(x, undefined)`). -/
def ofOpt : Option Nat → JNum
  | none => nan
  | some n => num n

/-- `Math.min` on JS numbers. -/
def jmin : JNum → JNum → JNum
  | nan, _ => nan
  | _, nan => nan
  | ninf, _ => ninf
  | _, ninf => ninf
  | inf, b => b
  | a, inf => a
  | num a, num b => num (min a b)

/-- JS multiplication. -/
def jmul : JNum → JNum → JNum
  | nan, _ => nan
  | _, nan => nan
  | inf, inf => inf
  | inf, ninf => ninf
  | ninf, inf => ninf
  | ninf, ninf => inf
  | inf, num q => if q = 0 then nan else if 0 < q then inf else ninf
  | num q, inf => if q = 0 then nan else if 0 < q then inf else ninf
  | ninf, num q => if q = 0 then nan else if 0 < q then ninf else inf
  | num q, ninf => if q = 0 then nan else if 0 < q then ninf else inf
  | num a, num b => num (a * b)

/-- JS division (`0/0 = NaN`, `q/0 = ±Infinity`, finite/infinite = 0). -/
def jdiv : JNum → JNum → JNum
  | nan, _ => nan
  | _, nan => nan
  | inf, inf => nan
  | inf, ninf => nan
  | ninf, inf => nan
  | ninf, ninf => nan
  | inf, num q => if 0 ≤ q then inf else ninf
  | ninf, num q => if 0 ≤ q then ninf else inf
  | num _, inf => num 0
  | num _, ninf => num 0
  | num a, num b =>
      if b = 0 then (if a = 0 then nan else if 0 < a then inf else ninf)
      else num (a / b)

/-- `Math.floor` on JS numbers. -/
def jfloor : JNum → JNum
  | num q => num (Int.floor q)
  | nan => nan
  | inf => inf
  | ninf => ninf

/-- JS `>` comparison (false whenever a NaN is involved). -/
def jgt : JNum → JNum → Bool
  | nan, _ => false
  | _, nan => false
  | inf, inf => false
  | inf, _ => true
  | _, inf => false
  | ninf, _ => false
  | num _, ninf => true
  | num a, num b => b < a

/-- JS `>=` comparison (false whenever a NaN is involved). -/
def jge : JNum → JNum → Bool
  | nan, _ => false
  | _, nan => false
  | inf, _ => true
  | num _, inf => false
  | ninf, ninf => true
  | ninf, _ => false
  | num _, ninf => true
  | num a, num b => b ≤ a

/-- Template-literal rendering of a JS number.  The source only ever
stringifies integers (clamped minima and `Math.floor` results), NaN, or
infinities; non-integral rationals are rendered via `Rat`'s printer and do
not arise in the flows proved below. -/
def display : JNum → String
  | num q => if q.den = 1 then toString q.num else toString q
  | nan => "NaN"
  | inf => "Infinity"
  | ninf => "-Infinity"

end JNum

/-- If `sep` is an initial segment of `l`, return the remainder. -/
def leadMatch : List Char → List Char → Option (List Char)
  | [], l => some l
  | _, [] => none
  | a :: p, b :: l => if a = b then leadMatch p l else none

/-- Fuel-driven splitting of a character list on a non-empty separator,
scanning left to right without overlap (the semantics of both JS
`String.prototype.split` and Lean's `String.splitOn` on the inputs used
here); fuel `l.length` always suffices. -/
def splitLF (sep : List Char) : ℕ → List Char → List Char → List (List Char)
  | 0, l, acc => [acc.reverse ++ l]
  | fuel + 1, l, acc =>
    match l with
    | [] => [acc.reverse]
    | c :: l' =>
      match leadMatch sep l with
      | some rest => acc.reverse :: splitLF sep fuel rest []
      | none => splitLF sep fuel l' (c :: acc)

/-- Split a character list on a separator (whole-input when empty). -/
def splitLChars (sep l : List Char) : List (List Char) :=
  if sep = [] then [l] else splitLF sep l.length l []

/-- `String.prototype.includes`: substring test. -/
def strIncludes (s sub : String) : Bool :=
  sub == "" || (splitLChars sub.toList s.toList).length > 1

/-- `String.prototype.replace` with a string pattern replaces only the first
occurrence. -/
def replaceFirstL (l pat : List Char) : List Char :=
  match splitLChars pat l with
  | [] => l
  | [_] => l
  | x :: xs => x ++ List.intercalate pat xs

/-- Whitespace trimming on character lists (JS `Number` trims its input). -/
def trimL (l : List Char) : List Char :=
  ((l.dropWhile Char.isWhitespace).reverse.dropWhile Char.isWhitespace).reverse

/-- Digits-only decimal reading used by the `Number()` model. -/
def decDigits? (cs : List Char) : Option ℕ :=
  if cs ≠ [] ∧ cs.all Char.isDigit then
    some (cs.foldl (fun a c => a * 10 + (c.toNat - 48)) 0)
  else none

/-- Model of JS `Number(string)` restricted to optionally signed decimal
literals (the shapes XYWH tokens can take): whitespace-trimmed, empty string
is 0, `digits`, `digits.digits`, `.digits`, `digits.`, `Infinity` forms;
anything else (such as a token still carrying an `xywh=` prefix) is NaN. -/
def jsNumberL (s : List Char) : JNum :=
  let cs := trimL s
  if cs = [] then .num 0 else
  let (neg, body) : Bool × List Char :=
    match cs with
    | '-' :: rest => (true, rest)
    | '+' :: rest => (false, rest)
    | l => (false, l)
  if body = "Infinity".toList then (if neg then .ninf else .inf)
  else
    match splitLChars ['.'] body with
    | [ip] =>
        match decDigits? ip with
        | some n => .num (if neg then -(n : ℚ) else (n : ℚ))
        | none => .nan
    | [ip, fp] =>
        if ip = [] ∧ fp = [] then .nan
        else
          let ipd := if ip = [] then some 0 else decDigits? ip
          let fpd := if fp = [] then some 0 else decDigits? fp
          match ipd, fpd with
          | some a, some b =>
              let mag : ℚ := a + (b : ℚ) / (10 : ℚ) ^ fp.length
              .num (if neg then -mag else mag)
          | _, _ => .nan
    | _ => .nan

/-- JS `Number` on strings. -/
def jsNumber (s : String) : JNum := jsNumberL s.toList

/-- Output of `parseXYWH`: absent components (fewer than four tokens) are
`none`, mirroring `undefined` fields. -/
structure XYWH where
  x : Option JNum
  y : Option JNum
  w : Option JNum
  h : Option JNum
  deriving DecidableEq, Repr

/-- `IIIFDataService.parseXYWH`: strips the literal `"xywh=pixel:"`, splits
on `","`, and coerces each token with `Number`. -/
def parseXYWH (target : String) : XYWH :=
  let xywh :=
    (splitLChars [','] (replaceFirstL target.toList "xywh=pixel:".toList)).map jsNumberL
  ⟨xywh.get? 0, xywh.get? 1, xywh.get? 2, xywh.get? 3⟩

/-! ## JSON shapes consumed by the Image-Service resolver -/

/-- JS truthiness of a possibly-absent string (`undefined` and `""` falsy). -/
def truthyStr : Option String → Bool
  | none => false
  | some s => s != ""

/-- JS truthiness of a possibly-absent number (`undefined` and `0` falsy). -/
def truthyNat : Option Nat → Bool
  | none => false
  | some n => n != 0

/-- JS `a || b` on string fields: returns `a` when truthy, else `b`
verbatim (which may itself be absent or empty). -/
def jsOrStr (a b : Option String) : Option String :=
  if truthyStr a then a else b

/-- One entry of an Image-Service `sizes` list. -/
structure SizeEntry where
  width : Option Nat
  height : Option Nat
  deriving DecidableEq, Repr

/-- One entry of an Image-Service `profile` array: a compliance string or an
object possibly carrying `maxWidth`/`maxHeight`. -/
inductive ProfileEntry
  | pstr (s : String)
  | pobj (maxWidth : Option Nat) (maxHeight : Option Nat)
  deriving DecidableEq, Repr

/-- The `profile` field: absent, a bare string, or an array of entries (the
source tests `Array.isArray`). -/
inductive ProfileVal
  | str (s : String)
  | arr (entries : List ProfileEntry)
  deriving DecidableEq, Repr

/-- An Image-Service description (info.json) as read by the source: only the
fields the code dereferences are modelled, each `Option`-typed because the
source guards them with truthiness checks or optional chaining. -/
structure InfoData where
  type : Option String
  atType : Option String
  atContext : Option String
  width : Option Nat
  height : Option Nat
  atId : Option String
  id : Option String
  sizes : Option (List SizeEntry)
  profile : Option ProfileVal
  deriving DecidableEq, Repr

/-- `IIIFDataService.isIIIFImageInfo`: v3 service tag, v2/v3 `@context`
namespace substring, or the width/height/`@id` truthiness heuristic. -/
def isIIIFImageInfo (data : InfoData) : Bool :=
  (data.type == some "ImageService3" || data.atType == some "ImageService3")
  || (truthyStr data.atContext &&
      (strIncludes (data.atContext.getD "") "iiif.io/api/image/2" ||
       strIncludes (data.atContext.getD "") "iiif.io/api/image/3"))
  || (truthyNat data.width && truthyNat data.height && truthyStr data.atId)

/-- `maxWidth && maxHeight` truthiness extraction from one profile entry. -/
def profileItemMax : ProfileEntry → Option (Nat × Nat)
  | .pobj (some w) (some h) => if w != 0 && h != 0 then some (w, h) else none
  | _ => none

/-- `IIIFDataService.getMaxAllowedSize`: first profile-array entry that is an
object with truthy `maxWidth` and `maxHeight`. -/
def getMaxAllowedSize (infoData : InfoData) : Option (Nat × Nat) :=
  match infoData.profile with
  | some (.arr entries) => entries.findSome? profileItemMax
  | _ => none

/-- Template-literal rendering of a possibly-absent size component. -/
def optNatStr : Option Nat → String
  | none => "undefined"
  | some n => toString n

/-- The `sizes`-entry qualification test
`size.width >= targetWidth && size.height >= targetHeight`. -/
def sizeQualifies (targetWidth targetHeight : JNum) (sz : SizeEntry) : Bool :=
  JNum.jge (JNum.ofOpt sz.width) targetWidth && JNum.jge (JNum.ofOpt sz.height) targetHeight

/-- `IIIFDataService.getBestSizeParameter`: with a `sizes` array, the first
entry meeting-or-exceeding both targets, else the array's last entry; with no
such entry at all (empty array) or no `sizes`, the targets clamped to any
profile `maxWidth`/`maxHeight` and rendered as `width,height`. -/
def getBestSizeParameter (infoData : InfoData) (targetWidth targetHeight : JNum) : String :=
  let rest :=
    let clamped : JNum × JNum :=
      match getMaxAllowedSize infoData with
      | some (mw, mh) => (JNum.jmin targetWidth (.num mw), JNum.jmin targetHeight (.num mh))
      | none => (targetWidth, targetHeight)
    JNum.display clamped.1 ++ "," ++ JNum.display clamped.2
  match infoData.sizes with
  | some sizes =>
    let availableSize :=
      (sizes.find? (sizeQualifies targetWidth targetHeight)).orElse fun _ => sizes.getLast?
    match availableSize with
    | some sz => optNatStr sz.width ++ "," ++ optNatStr sz.height
    | none => rest
  | none => rest

/-- `IIIFDataService.constructIIIFImageUrl`: clamp the canvas-declared
maxima to the native dimensions, adjust one dimension to keep the native
aspect ratio, delegate the size parameter, and build
`{baseUrl}/full/{sizeParam}/0/default.jpg`; throws when `@id || id` is
falsy.  All arithmetic is JS-number arithmetic (`JNum`). -/
def constructIIIFImageUrl (infoData : InfoData) (maxWidth maxHeight : Nat) :
    Except String String :=
  let baseUrl := jsOrStr infoData.atId infoData.id
  if truthyStr baseUrl then
    let b := baseUrl.getD ""
    let imageWidth := JNum.ofOpt infoData.width
    let imageHeight := JNum.ofOpt infoData.height
    let aspectRatio := JNum.jdiv imageWidth imageHeight
    let targetWidth := JNum.jmin (.num maxWidth) imageWidth
    let targetHeight := JNum.jmin (.num maxHeight) imageHeight
    let adjusted : JNum × JNum :=
      if JNum.jgt (JNum.jdiv targetWidth aspectRatio) targetHeight then
        (JNum.jfloor (JNum.jmul targetHeight aspectRatio), targetHeight)
      else
        (targetWidth, JNum.jfloor (JNum.jdiv targetWidth aspectRatio))
    let sizeParam := getBestSizeParameter infoData adjusted.1 adjusted.2
    .ok (b ++ "/full/" ++ sizeParam ++ "/0/default.jpg")
  else
    .error "No base URL found in IIIF Image API info"

/-! ## Fetch model -/

/-- A fetched HTTP response carrying a JSON body of shape `α`: `ok` is
`response.ok`, `contentType` the `content-type` header, and `body = none`
models `response.json()` throwing (non-JSON payload). -/
structure JResponse (α : Type) where
  ok : Bool
  contentType : Option String
  body : Option α
  deriving DecidableEq, Repr

/-- Outcome of one `fetch` call: the promise rejected (`thrown`) or a
response arrived. -/
inductive FetchOutcome (α : Type)
  | thrown
  | resp (r : JResponse α)
  deriving DecidableEq, Repr

/-- The content-type test
`contentType?.includes('application/json') || contentType?.includes('application/ld+json')`. -/
def ctIsJson : Option String → Bool
  | none => false
  | some s => strIncludes s "application/json" || strIncludes s "application/ld+json"

/-- `IIIFDataService.processIIIFImageUrl`: probe the identifier; on any
failure (rejected fetch, non-success status, non-JSON content type, JSON
parse error, unrecognized description, or a throw while constructing the
URL) return the original `imgUrl`; otherwise return the constructed URL.
The outcome of the single probe `fetch(imgUrl)` is passed explicitly. -/
def processIIIFImageUrl (probe : FetchOutcome InfoData) (imgUrl : String)
    (maxWidth maxHeight : Nat) : String :=
  match probe with
  | .thrown => imgUrl
  | .resp r =>
    if r.ok then
      if ctIsJson r.contentType then
        match r.body with
        | none => imgUrl
        | some infoData =>
          if isIIIFImageInfo infoData then
            match constructIIIFImageUrl infoData maxWidth maxHeight with
            | .ok url => url
            | .error _ => imgUrl
          else imgUrl
      else imgUrl
    else imgUrl

/-! ## Presentation-side JSON shapes -/

/-- The `body` of a v3 painting annotation (`items[0].items[0].body`). -/
structure ImageBody where
  id : Option String
  deriving DecidableEq, Repr

/-- One entry of a v3 canvas `items[0].items` list. -/
structure PaintingAnno where
  body : Option ImageBody
  deriving DecidableEq, Repr

/-- One entry of a v3 canvas `items` list (an annotation page of paintings). -/
structure CanvasItem where
  items : List PaintingAnno
  deriving DecidableEq, Repr

/-- A v2 `images[i].resource`. -/
structure V2Resource where
  atId : Option String
  id : Option String
  deriving DecidableEq, Repr

/-- One entry of a v2 canvas `images` list. -/
structure V2Image where
  resource : Option V2Resource
  deriving DecidableEq, Repr

/-- A canvas as read by the source.  The nested arrays are only ever
dereferenced through optional chaining (`?.items?.[0]` …), for which an
absent array and an empty array are indistinguishable, so they are modelled
as plain lists with `[]` for absence. -/
structure Canvas where
  id : Option String
  atId : Option String
  width : Option Nat
  height : Option Nat
  items : List CanvasItem
  images : List V2Image
  deriving DecidableEq, Repr

/-- The image-identifier extraction chain of `extractImageInfo`:
`items[0].items[0].body.id ?? images[0].resource["@id"] ?? images[0].resource.id`
(`??` skips only null/undefined, so an empty string propagates). -/
def rawImgUrl (canvasData : Canvas) : Option String :=
  (((canvasData.items.head?.map CanvasItem.items).bind List.head?).bind
      PaintingAnno.body).bind ImageBody.id
  |>.orElse fun _ =>
    ((canvasData.images.head?.bind V2Image.resource).bind V2Resource.atId)
  |>.orElse fun _ =>
    ((canvasData.images.head?.bind V2Image.resource).bind V2Resource.id)

/-- A v2 manifest `sequences` entry. -/
structure Sequence where
  canvases : Option (List Canvas)
  deriving DecidableEq, Repr

/-- A manifest: `items` (v3) or `sequences[0].canvases` (v2); both are
`Option`-typed because the source tests them for truthiness, under which an
empty array is truthy but an absent field is not. -/
structure Manifest where
  items : Option (List Canvas)
  sequences : Option (List Sequence)
  deriving DecidableEq, Repr

/-- A structured annotation target: a bare XYWH string, or an object whose
`selector?.value` chain yields `selValue` (absent when there is no selector
or no value). -/
inductive JTarget
  | strVal (s : String)
  | objVal (selValue : Option String)
  deriving DecidableEq, Repr

/-- An annotation `body` (`{ value }`). -/
structure AnnoBody where
  value : Option String
  deriving DecidableEq, Repr

/-- One annotation item (either embedded in an annotation page or fetched as
a standalone line). -/
structure AnnoItem where
  id : Option String
  target : Option JTarget
  body : Option AnnoBody
  deriving DecidableEq, Repr

/-- An annotation page (`{ items }`); truthiness-tested, hence `Option`. -/
structure AnnotationPage where
  items : Option (List AnnoItem)
  deriving DecidableEq, Repr

/-- One entry of the legacy page-with-target `items` list: only its `id` is
dereferenced (for the secondary fetch). -/
structure AnnoRef where
  id : Option String
  deriving DecidableEq, Repr

/-- The legacy page-with-target shape handled by `processPageData`:
`{ target, items }`. -/
structure PageShape where
  target : Option String
  items : List AnnoRef
  deriving DecidableEq, Repr

/-- A processed annotation as returned in the result list. -/
structure OutAnno where
  target : Option JTarget
  text : String
  lineid : Option String
  deriving DecidableEq, Repr

/-- The resolved page data (`{ imgUrl, imgWidth, imgHeight, annotations }`). -/
structure PageResult where
  imgUrl : String
  imgWidth : Nat
  imgHeight : Nat
  annotations : List OutAnno
  deriving DecidableEq, Repr

/-- Error taxonomy of a failed resolution: a required fetch failed, or a
required structural field was missing (`MalformedDataError`). -/
inductive DSError
  | dataFetch (msg : String)
  | malformed (msg : String)
  deriving DecidableEq, Repr

/-- The network, abstracted: the outcome of each `fetch` the service issues,
keyed by the requested identifier (an absent identifier is a fetch of
`undefined`, which still produces some outcome). -/
structure Env where
  probe : String → FetchOutcome InfoData
  canvasFetch : Option String → FetchOutcome Canvas
  annoFetch : Option String → FetchOutcome AnnoItem

/-- Partial result of `extractImageInfo` before annotations are attached. -/
structure ImageInfo where
  imgUrl : String
  imgWidth : Nat
  imgHeight : Nat
  deriving DecidableEq, Repr

/-- `IIIFDataService.extractImageInfo`: extract the image identifier (v3
path, then v2 paths) and the declared dimensions; if any is falsy, throw
`"Missing required image data in IIIF canvas"`; otherwise normalize the
identifier through `processIIIFImageUrl`. -/
def extractImageInfo (canvasData : Canvas) (env : Env) : Except DSError ImageInfo :=
  match rawImgUrl canvasData, canvasData.width, canvasData.height with
  | some u, some w, some h =>
    if u == "" || w == 0 || h == 0 then
      .error (.malformed "Missing required image data in IIIF canvas")
    else
      .ok ⟨processIIIFImageUrl (env.probe u) u w h, w, h⟩
  | _, _, _ => .error (.malformed "Missing required image data in IIIF canvas")

/-- The target chain `x?.target?.selector?.value ?? x?.target`: the
selector's value when the target is an object carrying one, otherwise the
target itself (a bare string target has no `selector` property, so the chain
yields `undefined` and falls back to the string). -/
def extractTarget : Option JTarget → Option JTarget
  | none => none
  | some (.strVal s) => some (.strVal s)
  | some (.objVal (some v)) => some (.strVal v)
  | some (.objVal none) => some (.objVal none)

/-- The per-annotation field extraction
`target: x?.target?.selector?.value ?? x?.target, text: x?.body?.value ?? "",
lineid: x?.id` shared by `processDirectCanvasData` and `processPageData`. -/
def extractAnno (x : AnnoItem) : OutAnno :=
  ⟨extractTarget x.target, (x.body.bind AnnoBody.value).getD "", x.id⟩

/-- `IIIFDataService.processDirectCanvasData`: extract the image info, then
map the annotation page's `items` (when present) through the field
extraction; the source's trailing `.flat()` is the identity because every
mapped element is a single object. -/
def processDirectCanvasData (canvasData : Canvas) (annotationPageData : AnnotationPage)
    (env : Env) : Except DSError PageResult :=
  match extractImageInfo canvasData env with
  | .error e => .error e
  | .ok info =>
    let annos : List OutAnno :=
      match annotationPageData.items with
      | some items => items.map extractAnno
      | none => []
    .ok ⟨info.imgUrl, info.imgWidth, info.imgHeight, annos⟩

/-- The secondary per-annotation fetch of `processPageData`: any rejection,
non-success status, or JSON parse failure is caught (with a console warning)
and becomes `null`; a successful fetch yields the extracted fields from the
fetched line. -/
def processAnnoRef (env : Env) (anno : AnnoRef) : Option OutAnno :=
  match env.annoFetch anno.id with
  | .thrown => none
  | .resp r =>
    if r.ok then
      match r.body with
      | none => none
      | some lineData => some (extractAnno lineData)
    else none

/-- `IIIFDataService.processPageData`: fetch `data.target` (a rejected or
non-success fetch, or unparseable JSON, propagates as an error), extract the
image info from the fetched canvas, then fetch each `items` entry and keep
only the non-null results (`filter(anno => anno !== null)`). -/
def processPageData (data : PageShape) (env : Env) : Except DSError PageResult :=
  match env.canvasFetch data.target with
  | .thrown => .error (.dataFetch "fetch rejected")
  | .resp r =>
    if r.ok then
      match r.body with
      | none => .error (.dataFetch "Failed to parse target JSON")
      | some targetData =>
        match extractImageInfo targetData env with
        | .error e => .error e
        | .ok info =>
          if data.items.length == 0 then
            .ok ⟨info.imgUrl, info.imgWidth, info.imgHeight, []⟩
          else
            let annos := data.items.map (processAnnoRef env)
            let validAnnos := annos.reduceOption
            .ok ⟨info.imgUrl, info.imgWidth, info.imgHeight, validAnnos⟩
    else .error (.dataFetch "Failed to fetch target data")

/-- The v3 canvas-matching test of `extractCanvasFromManifest`
(`item.id === canvasID || item["@id"] === canvasID`, with `===` on
possibly-undefined operands modelled by `Option` equality). -/
def canvasMatchesV3 (canvasID : Option String) (item : Canvas) : Bool :=
  item.id == canvasID || item.atId == canvasID

/-- The v2 canvas-matching test (`canvas["@id"] === canvasID`). -/
def canvasMatchesV2 (canvasID : Option String) (canvas : Canvas) : Bool :=
  canvas.atId == canvasID

/-- The canvas-selection logic of `extractCanvasFromManifest`: with a v3
`items` array, the first entry matching `canvasData.id || canvasData["@id"]`,
else (`??=`) the first entry; with a v2 `sequences[0].canvases` array
likewise; `none` when the consulted collection is empty or neither shape is
present. -/
def selectedCanvas (manifestData : Manifest) (canvasData : Canvas) : Option Canvas :=
  let canvasID := jsOrStr canvasData.id canvasData.atId
  match manifestData.items with
  | some items =>
      (items.find? (canvasMatchesV3 canvasID)).orElse fun _ => items.head?
  | none =>
    match (manifestData.sequences.bind List.head?).bind Sequence.canvases with
    | some canvases =>
        (canvases.find? (canvasMatchesV2 canvasID)).orElse fun _ => canvases.head?
    | none => none

/-- `IIIFDataService.extractCanvasFromManifest`: select the target canvas
(or throw `"No canvas found in manifest"`) and process it with the supplied
annotation page. -/
def extractCanvasFromManifest (manifestData : Manifest) (canvasData : Canvas)
    (annotationPageData : AnnotationPage) (env : Env) : Except DSError PageResult :=
  match selectedCanvas manifestData canvasData with
  | none => .error (.malformed "No canvas found in manifest")
  | some targetCanvas => processDirectCanvasData targetCanvas annotationPageData env

/-! ## Auxiliary predicates and concrete fixtures used in the statements -/

/-- `s` ends with `suf`. -/
def strEndsWith (s suf : String) : Bool :=
  (leadMatch suf.toList.reverse s.toList.reverse).isSome

/-- The failure conditions of the Image-Service probe enumerated by the
fail-open contract: rejected fetch, non-success status, non-JSON content
type, JSON parse failure, unrecognized description, or a throw during URL
construction. -/
def probeSoftFails (probe : FetchOutcome InfoData) (maxWidth maxHeight : Nat) : Prop :=
  match probe with
  | .thrown => True
  | .resp r =>
      r.ok = false ∨ ctIsJson r.contentType = false ∨ r.body = none ∨
      ∃ infoData, r.body = some infoData ∧
        (isIIIFImageInfo infoData = false ∨
         ∃ e, constructIIIFImageUrl infoData maxWidth maxHeight = .error e)

/-- A network on which every fetch rejects. -/
def envEmpty : Env := ⟨fun _ => .thrown, fun _ => .thrown, fun _ => .thrown⟩

/-- A minimal well-formed v3 canvas fixture. -/
def canvasOk : Canvas :=
  ⟨some "https://example.org/canvas/c1", none, some 100, some 80,
   [⟨[⟨some ⟨some "https://img.example/1"⟩⟩]⟩], []⟩

/-- A canvas fixture lacking `height`. -/
def canvasNoHeight : Canvas :=
  ⟨some "https://example.org/canvas/c1", none, some 100, none,
   [⟨[⟨some ⟨some "https://img.example/1"⟩⟩]⟩], []⟩

/-- An annotation page fixture with no `items` field. -/
def pageNone : AnnotationPage := ⟨none⟩

/-- The target-size computation as the specification states it, for
comparison with the source's `constructIIIFImageUrl`: clamp the requested
maxima to the native dimensions, then adjust exactly one dimension by a
floor to preserve the native aspect ratio `w / h`. -/
def specTargetSize (w h maxWidth maxHeight : Nat) : ℤ × ℤ :=
  let ar : ℚ := (w : ℚ) / (h : ℚ)
  let tW : ℕ := min maxWidth w
  let tH : ℕ := min maxHeight h
  if (tW : ℚ) / ar > (tH : ℚ) then (Int.floor ((tH : ℚ) * ar), (tH : ℤ))
  else ((tW : ℤ), Int.floor ((tW : ℚ) / ar))

/-- The info.json fixture of the claim's round-trip scenario: native
1000×800 with `sizes: [{100,80},{1000,800}]`. -/
def infoC5 : InfoData :=
  ⟨none, none, none, some 1000, some 800, some "https://example.org/images/abc",
   none, some [⟨some 100, some 80⟩, ⟨some 1000, some 800⟩], none⟩

/-- An info.json fixture with no `sizes` and no `profile`. -/
def infoNoSizes : InfoData :=
  ⟨none, none, none, some 1000, some 800, some "https://example.org/images/xyz",
   none, none, none⟩

/-- Manifest-entry fixtures for the canvas-selection witness. -/
def canvasEntryA : Canvas :=
  ⟨some "https://example.org/canvas/cA", none, some 10, some 10, [], []⟩

def canvasEntryB : Canvas :=
  ⟨some "https://example.org/canvas/cB", none, some 20, some 20, [], []⟩

def manifestV3Ex : Manifest := ⟨some [canvasEntryA, canvasEntryB], none⟩

/-- A canvas reference whose identifier names the second manifest entry. -/
def canvasRefB : Canvas :=
  ⟨some "https://example.org/canvas/cB", none, none, none, [], []⟩

/-- An embedded annotation-item fixture. -/
def annoItemEx : AnnoItem :=
  ⟨some "https://example.org/anno/a1", some (.strVal "xywh=0,0,100,50"),
   some ⟨some "Hello"⟩⟩

/-- An annotation page embedding `annoItemEx`. -/
def pageOneAnno : AnnotationPage := ⟨some [annoItemEx]⟩

/-- The result of resolving `canvasOk` with `pageOneAnno` over `envEmpty`. -/
def resOneAnno : PageResult :=
  ⟨"https://img.example/1", 100, 80,
   [⟨some (.strVal "xywh=0,0,100,50"), "Hello", some "https://example.org/anno/a1"⟩]⟩

/-- A legacy page-with-target fixture with one annotation reference. -/
def dataPage : PageShape :=
  ⟨some "https://example.org/page/target", [⟨some "https://example.org/anno/a1"⟩]⟩

/-- A network where the target-canvas fetch succeeds with `canvasOk` but
every secondary annotation fetch returns a non-success status (and the
Image-Service probe rejects). -/
def envAnnoFail : Env :=
  ⟨fun _ => .thrown, fun _ => .resp ⟨true, none, some canvasOk⟩,
   fun _ => .resp ⟨false, none, none⟩⟩

/-- Like `envAnnoFail` but with the secondary annotation fetch succeeding. -/
def envAnnoOk : Env :=
  ⟨fun _ => .thrown, fun _ => .resp ⟨true, none, some canvasOk⟩,
   fun _ => .resp ⟨true, none, some annoItemEx⟩⟩

/-! ## C1 -/

/-- C1: for every imageId and every maxWidth/maxHeight, whenever the
Image-Service probe fails in any of the enumerated ways (non-success status,
non-JSON response, JSON parse failure, unrecognized description, or a throw
during URL construction — and also a rejected fetch), `processIIIFImageUrl`
returns the original identifier unchanged and raises no error (it is a total
`String`-valued function). -/
theorem processIIIFImageUrl_fail_open
    (probe : FetchOutcome InfoData) (imgUrl : String) (maxWidth maxHeight : Nat)
    (h : probeSoftFails probe maxWidth maxHeight) :
    processIIIFImageUrl probe imgUrl maxWidth maxHeight = imgUrl := by
  cases probe with
  | thrown => rfl
  | resp r =>
    rcases h with hok | hct | hbody | ⟨infoData, hinfo, hii | ⟨e, he⟩⟩
    · simp [processIIIFImageUrl, hok]
    · simp [processIIIFImageUrl, hct]
    · simp [processIIIFImageUrl, hbody]
    · simp [processIIIFImageUrl, hinfo, hii]
    · simp [processIIIFImageUrl, hinfo, he]

/-- Witness for C1 at a concrete failing probe. -/
theorem processIIIFImageUrl_fail_open_witness :
    processIIIFImageUrl (.resp ⟨false, none, none⟩) "https://img.example/1" 100 80 =
      "https://img.example/1" :=
  processIIIFImageUrl_fail_open (.resp ⟨false, none, none⟩) "https://img.example/1" 100 80
    (Or.inl rfl)

/-! ## C2 -/

/-- C2: for every canvas from which the image-identifier extraction yields
nothing, or whose `width` or `height` is absent, resolution rejects with the
`MalformedDataError` `"Missing required image data in IIIF canvas"`; the
result is an error value, so no (even partially populated) `PageResult` and
no annotation-processing output is observable. -/
theorem processDirectCanvasData_missing_rejects
    (canvasData : Canvas) (annotationPageData : AnnotationPage) (env : Env)
    (h : rawImgUrl canvasData = none ∨ canvasData.width = none ∨ canvasData.height = none) :
    processDirectCanvasData canvasData annotationPageData env =
      .error (.malformed "Missing required image data in IIIF canvas") := by
  rcases h with h | h | h
  · cases hw : canvasData.width <;>
      simp [processDirectCanvasData, extractImageInfo, h, hw]
  · cases hu : rawImgUrl canvasData <;>
      simp [processDirectCanvasData, extractImageInfo, h, hu]
  · cases hu : rawImgUrl canvasData <;> cases hw : canvasData.width <;>
      simp [processDirectCanvasData, extractImageInfo, h, hu, hw]

/-- Witness for C2 at a concrete canvas lacking `height`. -/
theorem processDirectCanvasData_missing_rejects_witness :
    processDirectCanvasData canvasNoHeight pageNone envEmpty =
      .error (.malformed "Missing required image data in IIIF canvas") :=
  processDirectCanvasData_missing_rejects canvasNoHeight pageNone envEmpty
    (Or.inr (Or.inr rfl))

/-! ## C4 -/

/-- C4 (counterexample): contrary to the claim, `parseXYWH` does not strip
the bare `"xywh="` prefix, so `parseXYWH "xywh=10,20,30,40"` is not
`{x:10, y:20, w:30, h:40}` (its `x` is NaN). -/
theorem parseXYWH_bare_xywh_counterexample :
    parseXYWH "xywh=10,20,30,40" ≠
      ⟨some (.num 10), some (.num 20), some (.num 30), some (.num 40)⟩ := by decide

/-- C4 (amended): `parseXYWH` strips only the literal prefix
`"xywh=pixel:"` before splitting on `","`; the `pixel:`-prefixed input
parses to `{10,20,30,40}`, while the bare `"xywh="` input leaves the first
token non-numeric, yielding `{NaN,20,30,40}`. -/
theorem parseXYWH_pixel_only :
    parseXYWH "xywh=pixel:10,20,30,40" =
      ⟨some (.num 10), some (.num 20), some (.num 30), some (.num 40)⟩ ∧
    parseXYWH "xywh=10,20,30,40" =
      ⟨some .nan, some (.num 20), some (.num 30), some (.num 40)⟩ :=
  ⟨by decide, by decide⟩

/-! ## C8 -/

/-- Any successfully constructed Image-API URL has the literal
`{base}/full/{size}/0/default.jpg` shape. -/
theorem constructIIIFImageUrl_ok_shape (infoData : InfoData) (maxWidth maxHeight : Nat)
    (url : String) (h : constructIIIFImageUrl infoData maxWidth maxHeight = .ok url) :
    ∃ b s, url = b ++ "/full/" ++ s ++ "/0/default.jpg" := by
  by_cases hb : truthyStr (jsOrStr infoData.atId infoData.id) = true
  · refine ⟨(jsOrStr infoData.atId infoData.id).getD "", ?_, ?_⟩
    · exact getBestSizeParameter infoData
        (if JNum.jgt
            (JNum.jdiv (JNum.jmin (.num maxWidth) (JNum.ofOpt infoData.width))
              (JNum.jdiv (JNum.ofOpt infoData.width) (JNum.ofOpt infoData.height)))
            (JNum.jmin (.num maxHeight) (JNum.ofOpt infoData.height)) then
          JNum.jfloor (JNum.jmul (JNum.jmin (.num maxHeight) (JNum.ofOpt infoData.height))
            (JNum.jdiv (JNum.ofOpt infoData.width) (JNum.ofOpt infoData.height)))
        else JNum.jmin (.num maxWidth) (JNum.ofOpt infoData.width))
        (if JNum.jgt
            (JNum.jdiv (JNum.jmin (.num maxWidth) (JNum.ofOpt infoData.width))
              (JNum.jdiv (JNum.ofOpt infoData.width) (JNum.ofOpt infoData.height)))
            (JNum.jmin (.num maxHeight) (JNum.ofOpt infoData.height)) then
          JNum.jmin (.num maxHeight) (JNum.ofOpt infoData.height)
        else JNum.jfloor (JNum.jdiv (JNum.jmin (.num maxWidth) (JNum.ofOpt infoData.width))
          (JNum.jdiv (JNum.ofOpt infoData.width) (JNum.ofOpt infoData.height))))
    · rw [constructIIIFImageUrl, if_pos hb] at h
      simp only [Except.ok.injEq] at h
      rw [← h]
      rcases hgt : JNum.jgt
          (JNum.jdiv (JNum.jmin (.num maxWidth) (JNum.ofOpt infoData.width))
            (JNum.jdiv (JNum.ofOpt infoData.width) (JNum.ofOpt infoData.height)))
          (JNum.jmin (.num maxHeight) (JNum.ofOpt infoData.height)) with _ | _ <;>
        simp [hgt]
  · rw [constructIIIFImageUrl, if_neg hb] at h
    exact absurd h (by simp)

/-- `processIIIFImageUrl` either passes the identifier through or returns a
constructed `{base}/full/{size}/0/default.jpg` URL. -/
theorem processIIIFImageUrl_cases (probe : FetchOutcome InfoData) (imgUrl : String)
    (maxWidth maxHeight : Nat) :
    processIIIFImageUrl probe imgUrl maxWidth maxHeight = imgUrl ∨
    ∃ b s, processIIIFImageUrl probe imgUrl maxWidth maxHeight =
      b ++ "/full/" ++ s ++ "/0/default.jpg" := by
  cases probe with
  | thrown => exact Or.inl rfl
  | resp r =>
    cases hok : r.ok with
    | false => left; simp [processIIIFImageUrl, hok]
    | true =>
      cases hct : ctIsJson r.contentType with
      | false => left; simp [processIIIFImageUrl, hok, hct]
      | true =>
        cases hbody : r.body with
        | none => left; simp [processIIIFImageUrl, hok, hct, hbody]
        | some infoData =>
          cases hii : isIIIFImageInfo infoData with
          | false => left; simp [processIIIFImageUrl, hok, hct, hbody, hii]
          | true =>
            cases hc : constructIIIFImageUrl infoData maxWidth maxHeight with
            | error e => left; simp [processIIIFImageUrl, hok, hct, hbody, hii, hc]
            | ok url =>
              right
              obtain ⟨b, s, hbs⟩ := constructIIIFImageUrl_ok_shape infoData maxWidth maxHeight url hc
              exact ⟨b, s, by simp [processIIIFImageUrl, hok, hct, hbody, hii, hc, hbs]⟩

/-- C8 (counterexample): in the fail-open path the original identifier is
returned unchanged even when it is itself an info.json URL, so a returned
`imageUrl` can be an Image-Service description URL. -/
theorem imageUrl_infojson_passthrough :
    processIIIFImageUrl (.resp ⟨false, none, none⟩)
        "https://example.org/iiif/img/info.json" 1000 800 =
      "https://example.org/iiif/img/info.json" ∧
    strEndsWith "https://example.org/iiif/img/info.json" "/info.json" = true :=
  ⟨rfl, by decide⟩

/-- Any `.ok` result of `extractImageInfo` exposes the extracted identifier,
dimensions, and the probe-normalized URL. -/
theorem extractImageInfo_ok (canvasData : Canvas) (env : Env) (info : ImageInfo)
    (h : extractImageInfo canvasData env = .ok info) :
    ∃ u w hgt, rawImgUrl canvasData = some u ∧ canvasData.width = some w ∧
      canvasData.height = some hgt ∧
      info = ⟨processIIIFImageUrl (env.probe u) u w hgt, w, hgt⟩ := by
  unfold extractImageInfo at h
  rcases hu : rawImgUrl canvasData with _ | u
  · rw [hu] at h
    simp at h
  · rcases hw : canvasData.width with _ | w
    · rw [hu, hw] at h
      simp at h
    · rcases hh : canvasData.height with _ | hgt
      · rw [hu, hw, hh] at h
        simp at h
      · rw [hu, hw, hh] at h
        have h2 : (if (u == "" || w == 0 || hgt == 0) = true then
              (Except.error (DSError.malformed "Missing required image data in IIIF canvas") :
                Except DSError ImageInfo)
            else
              .ok ⟨processIIIFImageUrl (env.probe u) u w hgt, w, hgt⟩) = .ok info := h
        refine ⟨u, w, hgt, rfl, rfl, rfl, ?_⟩
        by_cases hc : (u == "" || w == 0 || hgt == 0) = true
        · rw [if_pos hc] at h2
          simp at h2
        · rw [if_neg hc] at h2
          simp only [Except.ok.injEq] at h2
          exact h2.symm

theorem processPageData_ok_elim (data : PageShape) (env : Env) (res : PageResult)
    (h : processPageData data env = .ok res) :
    ∃ r targetData info, env.canvasFetch data.target = .resp r ∧ r.ok = true ∧
      r.body = some targetData ∧ extractImageInfo targetData env = .ok info ∧
      res = ⟨info.imgUrl, info.imgWidth, info.imgHeight,
        (data.items.map (processAnnoRef env)).reduceOption⟩ := by
  unfold processPageData at h
  rcases hf : env.canvasFetch data.target with _ | r
  · simp only [hf] at h
    exact absurd h (by simp)
  · simp only [hf] at h
    rcases hok : r.ok with _ | _
    · simp [hok] at h
    · rw [hok, if_pos rfl] at h
      rcases hb : r.body with _ | targetData
      · simp only [hb] at h
        exact absurd h (by simp)
      · simp only [hb] at h
        rcases he : extractImageInfo targetData env with e | info
        · simp only [he] at h
          exact absurd h (by simp)
        · simp only [he] at h
          refine ⟨r, targetData, info, rfl, hok, hb, he, ?_⟩
          rcases hlen : data.items with _ | ⟨a, rest⟩
          · rw [hlen] at h
            have h2 : Except.ok
                (⟨info.imgUrl, info.imgWidth, info.imgHeight, ([] : List OutAnno)⟩ :
                  PageResult) = Except.ok res := h
            simp only [Except.ok.injEq] at h2
            exact h2.symm
          · rw [hlen] at h
            rw [if_neg (by simp)] at h
            have h2 := h
            simp only [Except.ok.injEq] at h2
            exact h2.symm

theorem extractImageInfo_imgUrl_shape (canvasData : Canvas) (env : Env)
    (info : ImageInfo) (he : extractImageInfo canvasData env = .ok info) :
    (∃ b s, info.imgUrl = b ++ "/full/" ++ s ++ "/0/default.jpg") ∨
    rawImgUrl canvasData = some info.imgUrl := by
  obtain ⟨u, w, hgt, hu, hw, hh, hinfo⟩ := extractImageInfo_ok canvasData env info he
  have hres : info.imgUrl = processIIIFImageUrl (env.probe u) u w hgt := by
    rw [hinfo]
  rcases processIIIFImageUrl_cases (env.probe u) u w hgt with hc | ⟨b, s, hc⟩
  · right
    rw [hu, hres, hc]
  · left
    exact ⟨b, s, by rw [hres, hc]⟩

/-- C8 (amended): for every successfully returned `PageResult` — whether
from the direct-canvas path or from the legacy page-with-target path —
`imgUrl` is either a constructed Image-API URL of shape
`{base}/full/{size}/0/default.jpg` (probe succeeded and recognized a
service) or the image identifier extracted from the resolved canvas passed
through unchanged, so the "never an info.json URL" invariant holds exactly
when that original identifier is not itself an info.json URL. -/
theorem pageResult_imageUrl_shape :
    (∀ (canvasData : Canvas) (annotationPageData : AnnotationPage) (env : Env)
        (res : PageResult),
      processDirectCanvasData canvasData annotationPageData env = .ok res →
      (∃ b s, res.imgUrl = b ++ "/full/" ++ s ++ "/0/default.jpg") ∨
      rawImgUrl canvasData = some res.imgUrl) ∧
    (∀ (data : PageShape) (env : Env) (res : PageResult),
      processPageData data env = .ok res →
      ∃ r targetData, env.canvasFetch data.target = .resp r ∧ r.body = some targetData ∧
        ((∃ b s, res.imgUrl = b ++ "/full/" ++ s ++ "/0/default.jpg") ∨
          rawImgUrl targetData = some res.imgUrl)) := by
  constructor
  · intro canvasData annotationPageData env res h
    unfold processDirectCanvasData at h
    cases he : extractImageInfo canvasData env with
    | error e =>
      rw [he] at h
      simp at h
    | ok info =>
      rw [he] at h
      simp only [Except.ok.injEq] at h
      have hres : res.imgUrl = info.imgUrl := by rw [← h]
      rw [hres]
      exact extractImageInfo_imgUrl_shape canvasData env info he
  · intro data env res h
    obtain ⟨r, targetData, info, hf, hok, hb, he, hres⟩ := processPageData_ok_elim data env res h
    refine ⟨r, targetData, hf, hb, ?_⟩
    have hu : res.imgUrl = info.imgUrl := by rw [hres]
    rw [hu]
    exact extractImageInfo_imgUrl_shape targetData env info he

/-- Witness for C8 (amended) at a concrete successful resolution whose probe
rejects, exercising the pass-through branch. -/
theorem pageResult_imageUrl_shape_witness :
    (∃ b s, ("https://img.example/1" : String) = b ++ "/full/" ++ s ++ "/0/default.jpg") ∨
    rawImgUrl canvasOk = some "https://img.example/1" :=
  pageResult_imageUrl_shape.1 canvasOk pageNone envEmpty ⟨"https://img.example/1", 100, 80, []⟩
    rfl

/-! ## C3 -/

theorem list_find?_first {α : Type} (p : α → Bool) :
    ∀ (l : List α) (i : ℕ) (hi : i < l.length),
      p (l.get ⟨i, hi⟩) = true →
      (∀ j (hj : j < i), p (l.get ⟨j, Nat.lt_trans hj hi⟩) = false) →
      l.find? p = some (l.get ⟨i, hi⟩)
  | [], i, hi, _, _ => absurd hi (by simp)
  | a :: l, 0, _, hp, _ => by
      simp only [List.get] at hp
      simp [List.find?, hp]
  | a :: l, i + 1, hi, hp, hmin => by
      have ha : p a = false := hmin 0 (Nat.succ_pos i)
      have hk : i < l.length := by simpa using hi
      have hpk : p (l.get ⟨i, hk⟩) = true := by simpa using hp
      have hmk : ∀ j (hj : j < i), p (l.get ⟨j, Nat.lt_trans hj hk⟩) = false := by
        intro j hj
        have := hmin (j + 1) (Nat.succ_lt_succ hj)
        simpa using this
      have := list_find?_first p l i hk hpk hmk
      simp [List.find?, ha, this]

/-- C3: for every manifest and supplied canvas identifier: in the consulted
collection (v3 `items`, or v2 `sequences[0].canvases` when `items` is
absent), the first entry matching the identifier is selected; when no entry
matches, the collection's first entry is selected without error; when the
collection is empty, resolution fails with
`MalformedDataError "No canvas found in manifest"`; and the selected canvas
is the one resolution proceeds with. -/
theorem canvas_selection_policy
    (manifestData : Manifest) (canvasData : Canvas)
    (annotationPageData : AnnotationPage) (env : Env) :
    (∀ items, manifestData.items = some items →
      (∀ i (hi : i < items.length),
          canvasMatchesV3 (jsOrStr canvasData.id canvasData.atId) (items.get ⟨i, hi⟩) = true →
          (∀ j (hj : j < i),
            canvasMatchesV3 (jsOrStr canvasData.id canvasData.atId)
              (items.get ⟨j, Nat.lt_trans hj hi⟩) = false) →
          selectedCanvas manifestData canvasData = some (items.get ⟨i, hi⟩)) ∧
      ((∀ c ∈ items,
          canvasMatchesV3 (jsOrStr canvasData.id canvasData.atId) c = false) →
        selectedCanvas manifestData canvasData = items.head?) ∧
      (items = [] →
        extractCanvasFromManifest manifestData canvasData annotationPageData env =
          .error (.malformed "No canvas found in manifest"))) ∧
    (∀ canvases, manifestData.items = none →
      (manifestData.sequences.bind List.head?).bind Sequence.canvases = some canvases →
      (∀ i (hi : i < canvases.length),
          canvasMatchesV2 (jsOrStr canvasData.id canvasData.atId) (canvases.get ⟨i, hi⟩) = true →
          (∀ j (hj : j < i),
            canvasMatchesV2 (jsOrStr canvasData.id canvasData.atId)
              (canvases.get ⟨j, Nat.lt_trans hj hi⟩) = false) →
          selectedCanvas manifestData canvasData = some (canvases.get ⟨i, hi⟩)) ∧
      ((∀ c ∈ canvases,
          canvasMatchesV2 (jsOrStr canvasData.id canvasData.atId) c = false) →
        selectedCanvas manifestData canvasData = canvases.head?) ∧
      (canvases = [] →
        extractCanvasFromManifest manifestData canvasData annotationPageData env =
          .error (.malformed "No canvas found in manifest"))) ∧
    (∀ targetCanvas, selectedCanvas manifestData canvasData = some targetCanvas →
      extractCanvasFromManifest manifestData canvasData annotationPageData env =
        processDirectCanvasData targetCanvas annotationPageData env) := by
  refine ⟨?_, ?_, ?_⟩
  · intro items hit
    refine ⟨?_, ?_, ?_⟩
    · intro i hi hp hmin
      simp only [selectedCanvas, hit]
      rw [list_find?_first _ items i hi hp hmin]
      rfl
    · intro hall
      simp only [selectedCanvas, hit]
      have hn : items.find? (canvasMatchesV3 (jsOrStr canvasData.id canvasData.atId)) = none :=
        List.find?_eq_none.mpr fun x hx => by simp [hall x hx]
      rw [hn]
      rfl
    · intro he
      subst he
      simp [extractCanvasFromManifest, selectedCanvas, hit]
  · intro canvases hnone hseq
    refine ⟨?_, ?_, ?_⟩
    · intro i hi hp hmin
      simp only [selectedCanvas, hnone, hseq]
      rw [list_find?_first _ canvases i hi hp hmin]
      rfl
    · intro hall
      simp only [selectedCanvas, hnone, hseq]
      have hn : canvases.find? (canvasMatchesV2 (jsOrStr canvasData.id canvasData.atId)) = none :=
        List.find?_eq_none.mpr fun x hx => by simp [hall x hx]
      rw [hn]
      rfl
    · intro he
      subst he
      simp [extractCanvasFromManifest, selectedCanvas, hnone, hseq]
  · intro targetCanvas hsel
    rw [extractCanvasFromManifest, hsel]

/-- Witness for C3: on a two-canvas v3 manifest, a reference naming the
second canvas selects exactly that canvas. -/
theorem canvas_selection_policy_witness :
    selectedCanvas manifestV3Ex canvasRefB = some canvasEntryB := by
  have hmB : canvasMatchesV3 (jsOrStr canvasRefB.id canvasRefB.atId) canvasEntryB = true := by
    decide
  have hmA : canvasMatchesV3 (jsOrStr canvasRefB.id canvasRefB.atId) canvasEntryA = false := by
    decide
  exact ((canvas_selection_policy manifestV3Ex canvasRefB pageNone envEmpty).1
      [canvasEntryA, canvasEntryB] rfl).1 1 (by decide) hmB
      (fun j hj => by
        have hj0 : j = 0 := by omega
        subst hj0
        exact hmA)

/-! ## C5 -/

/-- C5: with a non-empty `sizes` list, the chosen size parameter is the
first entry whose width and height both meet or exceed the targets, or the
list's last entry when none qualifies; and on the claim's round-trip fixture
(native 1000×800, sizes [{100,80},{1000,800}], requested 500×400) the
constructed URL embeds the `{1000,800}` entry. -/
theorem size_selection_policy :
    (∀ (infoData : InfoData) (sizes : List SizeEntry) (tW tH : JNum),
      infoData.sizes = some sizes → sizes ≠ [] →
      (∀ i (hi : i < sizes.length),
          sizeQualifies tW tH (sizes.get ⟨i, hi⟩) = true →
          (∀ j (hj : j < i), sizeQualifies tW tH (sizes.get ⟨j, Nat.lt_trans hj hi⟩) = false) →
          getBestSizeParameter infoData tW tH =
            optNatStr (sizes.get ⟨i, hi⟩).width ++ "," ++ optNatStr (sizes.get ⟨i, hi⟩).height) ∧
      (∀ lastE, (∀ e ∈ sizes, sizeQualifies tW tH e = false) →
        sizes.getLast? = some lastE →
        getBestSizeParameter infoData tW tH =
          optNatStr lastE.width ++ "," ++ optNatStr lastE.height)) ∧
    constructIIIFImageUrl infoC5 500 400 =
      .ok "https://example.org/images/abc/full/1000,800/0/default.jpg" := by
  constructor
  · intro infoData sizes tW tH hs _
    constructor
    · intro i hi hp hmin
      simp only [getBestSizeParameter, hs]
      rw [list_find?_first _ sizes i hi hp hmin]
      rfl
    · intro lastE hall hlast
      simp only [getBestSizeParameter, hs]
      have hn : sizes.find? (sizeQualifies tW tH) = none :=
        List.find?_eq_none.mpr fun x hx => by simp [hall x hx]
      rw [hn]
      simp only [hlast]
      rfl
  · have hq1 : ¬((800 : ℚ) = 0) := by norm_num
    have hq2 : ¬((1000 : ℚ) / 800 = 0) := by norm_num
    have hdiv : ((500 : ℚ) : ℚ) / ((1000 : ℚ) / 800) = 400 := by norm_num
    simp only [constructIIIFImageUrl, infoC5, JNum.ofOpt, JNum.jdiv, JNum.jmin, JNum.jmul,
      JNum.jfloor, JNum.jgt, jsOrStr, truthyStr]
    norm_num
    rw [if_pos (by decide)]
    simp only [Except.ok.injEq]
    decide

/-- Witness for C5: on the round-trip fixture with targets 500×400, the
first qualifying entry `{1000,800}` is chosen. -/
theorem size_selection_policy_witness :
    getBestSizeParameter infoC5 (.num 500) (.num 400) =
      optNatStr (some 1000) ++ "," ++ optNatStr (some 800) := by
  have hmB : sizeQualifies (.num 500) (.num 400) (⟨some 1000, some 800⟩ : SizeEntry) = true := by
    decide
  have hmA : sizeQualifies (.num 500) (.num 400) (⟨some 100, some 80⟩ : SizeEntry) = false := by
    decide
  exact (size_selection_policy.1 infoC5 [⟨some 100, some 80⟩, ⟨some 1000, some 800⟩]
      (.num 500) (.num 400) rfl (by decide)).1 1 (by decide) hmB
      (fun j hj => by
        have hj0 : j = 0 := by omega
        subst hj0
        exact hmA)

/-! ## C6 -/

theorem constructIIIFImageUrl_eval (infoData : InfoData) (maxWidth maxHeight w h : Nat)
    (b : String) (hb : jsOrStr infoData.atId infoData.id = some b) (hbne : b ≠ "")
    (hw : infoData.width = some w) (hh : infoData.height = some h)
    (hw0 : 0 < w) (hh0 : 0 < h) :
    constructIIIFImageUrl infoData maxWidth maxHeight =
      .ok (b ++ "/full/" ++
        getBestSizeParameter infoData
          (.num ((specTargetSize w h maxWidth maxHeight).1 : ℚ))
          (.num ((specTargetSize w h maxWidth maxHeight).2 : ℚ)) ++ "/0/default.jpg") := by
  have hqh : ((h : ℚ)) ≠ 0 := Nat.cast_ne_zero.mpr (Nat.pos_iff_ne_zero.mp hh0)
  have hqw : ((w : ℚ)) ≠ 0 := Nat.cast_ne_zero.mpr (Nat.pos_iff_ne_zero.mp hw0)
  have har : (w : ℚ) / h ≠ 0 := div_ne_zero hqw hqh
  have ear : JNum.jdiv (.num (w : ℚ)) (.num (h : ℚ)) = .num ((w : ℚ) / h) := by
    simp [JNum.jdiv, hqh]
  have etw : JNum.jmin (.num (maxWidth : ℚ)) (.num (w : ℚ)) =
      .num ((min maxWidth w : ℕ) : ℚ) := by
    simp [JNum.jmin, Nat.cast_min]
  have eth : JNum.jmin (.num (maxHeight : ℚ)) (.num (h : ℚ)) =
      .num ((min maxHeight h : ℕ) : ℚ) := by
    simp [JNum.jmin, Nat.cast_min]
  have ediv : JNum.jdiv (.num ((min maxWidth w : ℕ) : ℚ)) (.num ((w : ℚ) / h)) =
      .num (((min maxWidth w : ℕ) : ℚ) / ((w : ℚ) / h)) := by
    simp [JNum.jdiv, har]
  have key : (if JNum.jgt
        (JNum.jdiv (JNum.jmin (.num (maxWidth : ℚ)) (.num (w : ℚ)))
          (JNum.jdiv (.num (w : ℚ)) (.num (h : ℚ))))
        (JNum.jmin (.num (maxHeight : ℚ)) (.num (h : ℚ))) = true then
        (JNum.jfloor (JNum.jmul (JNum.jmin (.num (maxHeight : ℚ)) (.num (h : ℚ)))
            (JNum.jdiv (.num (w : ℚ)) (.num (h : ℚ)))),
          JNum.jmin (.num (maxHeight : ℚ)) (.num (h : ℚ)))
      else
        (JNum.jmin (.num (maxWidth : ℚ)) (.num (w : ℚ)),
          JNum.jfloor (JNum.jdiv (JNum.jmin (.num (maxWidth : ℚ)) (.num (w : ℚ)))
            (JNum.jdiv (.num (w : ℚ)) (.num (h : ℚ)))))) =
      (.num ((specTargetSize w h maxWidth maxHeight).1 : ℚ),
        .num ((specTargetSize w h maxWidth maxHeight).2 : ℚ)) := by
    rw [ear, etw, eth, ediv]
    simp only [specTargetSize]
    by_cases hc :
        ((min maxHeight h : ℕ) : ℚ) < ((min maxWidth w : ℕ) : ℚ) / ((w : ℚ) / h)
    · rw [if_pos (show JNum.jgt (.num (((min maxWidth w : ℕ) : ℚ) / ((w : ℚ) / h)))
          (.num ((min maxHeight h : ℕ) : ℚ)) = true from by
            simp only [JNum.jgt]
            exact decide_eq_true hc),
        if_pos hc]
      simp [JNum.jmul, JNum.jfloor]
    · rw [if_neg (show ¬JNum.jgt (.num (((min maxWidth w : ℕ) : ℚ) / ((w : ℚ) / h)))
          (.num ((min maxHeight h : ℕ) : ℚ)) = true from by
            simp only [JNum.jgt, decide_eq_true_eq]
            exact hc),
        if_neg hc]
      simp [JNum.jfloor]
  simp only [constructIIIFImageUrl, hb, hw, hh, JNum.ofOpt]
  rw [if_pos (show truthyStr (some b) = true by simp [truthyStr, hbne])]
  rw [key]
  rfl

/-- C6: for every recognized service description with present, positive
native `width`/`height` and a truthy base identifier, the computed target
size is exactly the clamp-then-aspect-ratio-adjust formula of the spec
(`specTargetSize`), and the result is
`{serviceBaseId}/full/{sizeParam}/0/default.jpg`. -/
theorem constructIIIFImageUrl_spec_size (infoData : InfoData)
    (maxWidth maxHeight w h : Nat) (b : String)
    (hb : jsOrStr infoData.atId infoData.id = some b) (hbne : b ≠ "")
    (hw : infoData.width = some w) (hh : infoData.height = some h)
    (hw0 : 0 < w) (hh0 : 0 < h) :
    constructIIIFImageUrl infoData maxWidth maxHeight =
      .ok (b ++ "/full/" ++
        getBestSizeParameter infoData
          (.num ((specTargetSize w h maxWidth maxHeight).1 : ℚ))
          (.num ((specTargetSize w h maxWidth maxHeight).2 : ℚ)) ++ "/0/default.jpg") :=
  constructIIIFImageUrl_eval infoData maxWidth maxHeight w h b hb hbne hw hh hw0 hh0

/-- Witness for C6 at a concrete service description without `sizes` or
`profile`: native 1000×800 clamped by 500×400 yields the size `500,400`. -/
theorem constructIIIFImageUrl_spec_size_witness :
    constructIIIFImageUrl infoNoSizes 500 400 =
      .ok "https://example.org/images/xyz/full/500,400/0/default.jpg" := by
  have h := constructIIIFImageUrl_spec_size infoNoSizes 500 400 1000 800
    "https://example.org/images/xyz" rfl (by decide) rfl rfl (by norm_num) (by norm_num)
  have hs : specTargetSize 1000 800 500 400 = (500, 400) := by
    simp only [specTargetSize]
    norm_num
  rw [h, hs]
  push_cast
  simp only [Except.ok.injEq]
  decide

/-! ## Shared elimination lemmas for successful resolutions -/

theorem processDirectCanvasData_ok_annos (canvasData : Canvas)
    (annotationPageData : AnnotationPage) (env : Env) (items : List AnnoItem)
    (res : PageResult) (hit : annotationPageData.items = some items)
    (h : processDirectCanvasData canvasData annotationPageData env = .ok res) :
    res.annotations = items.map extractAnno := by
  unfold processDirectCanvasData at h
  cases he : extractImageInfo canvasData env with
  | error e =>
    simp only [he] at h
    exact absurd h (by simp)
  | ok info =>
    simp only [he, hit] at h
    simp only [Except.ok.injEq] at h
    rw [← h]

theorem reduceOption_map_some_sublist {α : Type} :
    ∀ l : List (Option α), (l.reduceOption.map some).Sublist l
  | [] => by simp
  | none :: l => by
      simpa [List.reduceOption] using (reduceOption_map_some_sublist l).cons none
  | some a :: l => by
      simpa [List.reduceOption] using (reduceOption_map_some_sublist l).cons₂ (some a)

/-! ## C7 -/

/-- C7: every annotation in the result list carries exactly the fields
`target = item.target?.selector?.value ?? item.target`,
`text = item.body?.value ?? ""`, and `lineid = item.id` — from the embedded
annotation-page items in `processDirectCanvasData`, and from the fetched
line bodies in `processPageData`. -/
theorem annotation_field_extraction :
    (∀ (canvasData : Canvas) (annotationPageData : AnnotationPage) (env : Env)
        (items : List AnnoItem) (res : PageResult),
      annotationPageData.items = some items →
      processDirectCanvasData canvasData annotationPageData env = .ok res →
      res.annotations.length = items.length ∧
      ∀ i (hi : i < res.annotations.length) (hi2 : i < items.length),
        (res.annotations.get ⟨i, hi⟩).target = extractTarget (items.get ⟨i, hi2⟩).target ∧
        (res.annotations.get ⟨i, hi⟩).text =
          ((items.get ⟨i, hi2⟩).body.bind AnnoBody.value).getD "" ∧
        (res.annotations.get ⟨i, hi⟩).lineid = (items.get ⟨i, hi2⟩).id) ∧
    (∀ (data : PageShape) (env : Env) (res : PageResult),
      processPageData data env = .ok res →
      ∀ a ∈ res.annotations, ∃ ref r lineData, ref ∈ data.items ∧
        env.annoFetch ref.id = .resp r ∧ r.ok = true ∧ r.body = some lineData ∧
        a.target = extractTarget lineData.target ∧
        a.text = (lineData.body.bind AnnoBody.value).getD "" ∧
        a.lineid = lineData.id) := by
  constructor
  · intro canvasData annotationPageData env items res hit h
    have hann := processDirectCanvasData_ok_annos canvasData annotationPageData env items res hit h
    constructor
    · rw [hann, List.length_map]
    · intro i hi hi2
      have hget : res.annotations.get ⟨i, hi⟩ = extractAnno (items.get ⟨i, hi2⟩) := by
        have := List.get_of_eq hann ⟨i, hi⟩
        rw [this]
        simp
      rw [hget]
      exact ⟨rfl, rfl, rfl⟩
  · intro data env res h a ha
    obtain ⟨r, targetData, info, _, _, _, _, hres⟩ := processPageData_ok_elim data env res h
    rw [hres] at ha
    rw [List.reduceOption_mem_iff] at ha
    obtain ⟨ref, href, hsome⟩ := List.mem_map.mp ha
    unfold processAnnoRef at hsome
    rcases hf : env.annoFetch ref.id with _ | rr
    · rw [hf] at hsome
      simp at hsome
    · rw [hf] at hsome
      have hsome2 : (if rr.ok = true then
          (match rr.body with
            | none => none
            | some lineData => some (extractAnno lineData))
          else none) = some a := hsome
      rcases hok : rr.ok with _ | _
      · rw [hok] at hsome2
        simp at hsome2
      · rw [hok, if_pos rfl] at hsome2
        rcases hb : rr.body with _ | lineData
        · rw [hb] at hsome2
          simp at hsome2
        · rw [hb] at hsome2
          simp only [Option.some.injEq] at hsome2
          refine ⟨ref, rr, lineData, href, hf, hok, hb, ?_, ?_, ?_⟩ <;>
            rw [← hsome2] <;> rfl

/-- Witness for C7 at a concrete one-annotation page. -/
theorem annotation_field_extraction_witness :
    resOneAnno.annotations.length = ([annoItemEx] : List AnnoItem).length :=
  (annotation_field_extraction.1 canvasOk pageOneAnno envEmpty [annoItemEx] resOneAnno
    rfl rfl).1

/-! ## C9 -/

/-- C9 (counterexample): a failed secondary per-annotation fetch in the
page-with-target shape is silently dropped — the fetch for the single
annotation returns a non-success status, yet resolution succeeds with an
empty annotation list and no error. -/
theorem annotation_failure_dropped_counterexample :
    envAnnoFail.annoFetch (some "https://example.org/anno/a1") = .resp ⟨false, none, none⟩ ∧
    dataPage.items = [⟨some "https://example.org/anno/a1"⟩] ∧
    processPageData dataPage envAnnoFail = .ok ⟨"https://img.example/1", 100, 80, []⟩ :=
  ⟨rfl, rfl, rfl⟩

/-- C9 (amended): a failed target-canvas fetch propagates as a rejection
(`DataFetchError`), but a failed secondary per-annotation fetch yields
`null` and is filtered out of the returned list while resolution succeeds —
the per-annotation failures are logged-and-swallowed by design of the code. -/
theorem failure_propagation_policy :
    (∀ (data : PageShape) (env : Env),
      (env.canvasFetch data.target = .thrown ∨
        ∃ r, env.canvasFetch data.target = .resp r ∧ r.ok = false) →
      ∃ msg, processPageData data env = .error (.dataFetch msg)) ∧
    (∀ (env : Env) (ref : AnnoRef),
      (env.annoFetch ref.id = .thrown ∨
        ∃ r, env.annoFetch ref.id = .resp r ∧ r.ok = false) →
      processAnnoRef env ref = none) ∧
    (∀ (data : PageShape) (env : Env) (res : PageResult),
      processPageData data env = .ok res →
      res.annotations = (data.items.map (processAnnoRef env)).reduceOption) := by
  refine ⟨?_, ?_, ?_⟩
  · intro data env hfail
    rcases hfail with hf | ⟨r, hf, hok⟩
    · exact ⟨"fetch rejected", by unfold processPageData; rw [hf]⟩
    · refine ⟨"Failed to fetch target data", ?_⟩
      unfold processPageData
      simp only [hf]
      rw [hok]
      rfl
  · intro env ref hfail
    rcases hfail with hf | ⟨r, hf, hok⟩
    · unfold processAnnoRef
      rw [hf]
    · unfold processAnnoRef
      simp only [hf]
      rw [hok]
      rfl
  · intro data env res h
    obtain ⟨r, targetData, info, _, _, _, _, hres⟩ := processPageData_ok_elim data env res h
    rw [hres]

/-- Witness for C9 (amended) at a concrete rejected target fetch. -/
theorem failure_propagation_policy_witness :
    ∃ msg, processPageData dataPage envEmpty = .error (.dataFetch msg) :=
  failure_propagation_policy.1 dataPage envEmpty (Or.inl rfl)

/-! ## C10 -/

/-- C10: the result's annotation list preserves source order — in
`processDirectCanvasData` it is exactly the element-wise image of the page's
`items`, and in `processPageData` it is the order-preserving sublist of the
per-item secondary-fetch results with the failed (`null`) entries removed;
in this pure embedding annotation values are never mutated or duplicated
after construction. -/
theorem annotation_order_preserved :
    (∀ (canvasData : Canvas) (annotationPageData : AnnotationPage) (env : Env)
        (items : List AnnoItem) (res : PageResult),
      annotationPageData.items = some items →
      processDirectCanvasData canvasData annotationPageData env = .ok res →
      res.annotations = items.map extractAnno) ∧
    (∀ (data : PageShape) (env : Env) (res : PageResult),
      processPageData data env = .ok res →
      res.annotations = (data.items.map (processAnnoRef env)).reduceOption ∧
      (res.annotations.map some).Sublist (data.items.map (processAnnoRef env))) := by
  constructor
  · exact fun canvasData annotationPageData env items res hit h =>
      processDirectCanvasData_ok_annos canvasData annotationPageData env items res hit h
  · intro data env res h
    obtain ⟨r, targetData, info, _, _, _, _, hres⟩ := processPageData_ok_elim data env res h
    rw [hres]
    exact ⟨rfl, reduceOption_map_some_sublist _⟩

/-- Witness for C10 at a concrete embedded annotation page. -/
theorem annotation_order_preserved_witness :
    resOneAnno.annotations = ([annoItemEx] : List AnnoItem).map extractAnno :=
  annotation_order_preserved.1 canvasOk pageOneAnno envEmpty [annoItemEx] resOneAnno rfl rfl

end PageViewer
